import Mathlib

/-!
Verification of the read-only MSSQL gateway in src/mssql/server.py.

Python strings are modeled as lists of characters (`Str`).  Each definition
below is a direct translation of the corresponding Python function; the
handlers take the database backend as an explicit oracle argument
(a function or an `Except` value) since the live connection is outside the
program text.
-/

/-- Python strings, modeled as lists of characters. -/
abbrev Str := List Char

/-- Character list of a Lean string literal. -/
def sl (s : String) : Str := s.data

/-- The ASCII whitespace characters stripped by Python str.strip(). -/
def pyIsSpace (c : Char) : Bool :=
  c = ' ' || c = '\t' || c = '\n' || c = '\r' || c = '\x0b' || c = '\x0c'

/-- Python s.lstrip(): drop leading whitespace. -/
def lstrip (l : Str) : Str := l.dropWhile pyIsSpace

/-- Python s.rstrip(): drop trailing whitespace. -/
def rstrip (l : Str) : Str := (l.reverse.dropWhile pyIsSpace).reverse

/-- Python s.strip(): drop whitespace at both ends. -/
def pyStrip (l : Str) : Str := rstrip (lstrip l)

/-- Python s.upper() (ASCII case mapping; all inputs of interest are ASCII). -/
def pyUpper (l : Str) : Str := l.map Char.toUpper

/-- SQLValidator.is_read_only_query (server.py lines 79-86):
return query.strip().upper().startswith('SELECT'). -/
def is_read_only_query (query : Str) : Bool :=
  List.isPrefixOf (sl "SELECT") (pyUpper (pyStrip query))

/-- lstrip keeps a list whose head is not whitespace. -/
lemma lstrip_cons_not_space (c : Char) (l : Str) (h : pyIsSpace c = false) :
    lstrip (c :: l) = c :: l := by
  simp [lstrip, List.dropWhile_cons, h]

/-- rstrip keeps the non-whitespace head of a list. -/
lemma rstrip_cons_not_space (c : Char) (l : Str) (h : pyIsSpace c = false) :
    ∃ r, rstrip (c :: l) = c :: r := by
  unfold rstrip
  rw [show (c :: l).reverse = l.reverse ++ [c] by simp]
  rw [List.dropWhile_append]
  by_cases hd : (List.dropWhile pyIsSpace l.reverse).isEmpty
  · refine ⟨[], ?_⟩
    simp [hd, List.dropWhile_cons, h]
  · refine ⟨(List.dropWhile pyIsSpace l.reverse).reverse, ?_⟩
    simp [hd]

/-- Stripping a string that begins with the non-whitespace block SELECT
leaves that block in place. -/
lemma strip_select_append (t : Str) :
    ∃ r, pyStrip (sl "SELECT" ++ t) = sl "SELECT" ++ r := by
  unfold pyStrip
  have hl : lstrip (sl "SELECT" ++ t) = sl "SELECT" ++ t := by
    have := lstrip_cons_not_space 'S' (sl "ELECT" ++ t) (by decide)
    exact this
  rw [hl]
  unfold rstrip
  rw [show (sl "SELECT" ++ t).reverse = t.reverse ++ (sl "SELECT").reverse by simp]
  rw [List.dropWhile_append]
  by_cases hd : (List.dropWhile pyIsSpace t.reverse).isEmpty
  · refine ⟨[], ?_⟩
    simp only [hd, if_true]
    decide
  · refine ⟨(List.dropWhile pyIsSpace t.reverse).reverse, ?_⟩
    simp only [hd, if_false, List.reverse_append, List.reverse_reverse]
    simp

/-- Uppercasing fixes the literal SELECT block. -/
lemma pyUpper_select_append (r : Str) :
    pyUpper (sl "SELECT" ++ r) = sl "SELECT" ++ pyUpper r := by
  unfold pyUpper
  rw [List.map_append]
  congr 1

/-- Any query whose text begins with the literal characters SELECT is
admitted by the validator, whatever follows. -/
lemma validator_select_leading (t : Str) :
    is_read_only_query (sl "SELECT" ++ t) = true := by
  obtain ⟨r, hr⟩ := strip_select_append t
  unfold is_read_only_query
  rw [hr, pyUpper_select_append]
  exact ( List.isPrefixOf_iff_prefix).mpr (List.prefix_append _ _)

/-- A query whose first character is not whitespace and does not uppercase
to the letter S is rejected by the validator. -/
lemma validator_rejects_head (c : Char) (l : Str) (hws : pyIsSpace c = false)
    (hc : Char.toUpper c ≠ 'S') :
    is_read_only_query (c :: l) = false := by
  unfold is_read_only_query pyStrip
  rw [lstrip_cons_not_space c l hws]
  obtain ⟨r, hr⟩ := rstrip_cons_not_space c l hws
  rw [hr]
  rw [Bool.eq_false_iff]
  intro hb
  have hp : sl "SELECT" <+: pyUpper (c :: r) := ( List.isPrefixOf_iff_prefix).mp hb
  have hp' : 'S' :: sl "ELECT" <+: Char.toUpper c :: pyUpper r := hp
  rw [List.cons_prefix_cons] at hp'
  exact hc hp'.1.symm

/-- The query composed by read_resource is admitted by the validator for
every table segment (server.py lines 119-122). -/
lemma preview_query_admitted (table : Str) :
    is_read_only_query (sl "SELECT TOP 100 * FROM " ++ table) = true :=
  validator_select_leading (sl " TOP 100 * FROM " ++ table)

/-- C1 counterexample: the claim asserts classify("SELECT 1; DROP TABLE t") =
Rejected, but is_read_only_query admits this stacked query (it only checks the
leading keyword), so the claim is false at this input. -/
theorem C1_counterexample :
    is_read_only_query (sl "SELECT 1; DROP TABLE t") = true := by decide

/-- C1 amended: the validator applies no deny-list and no stacked-query rule;
every query beginning with the characters "SELECT " is admitted even when a
statement separator and a deny-listed keyword such as DROP follow, and in
particular "SELECT 1; DROP TABLE t" is admitted. -/
theorem C1_amended_theorem (t : Str) :
    is_read_only_query (sl "SELECT " ++ t ++ sl "; DROP TABLE t") = true ∧
    is_read_only_query (sl "SELECT 1; DROP TABLE t") = true := by
  constructor
  · have h := validator_select_leading ((' ' :: t) ++ sl "; DROP TABLE t")
    calc is_read_only_query (sl "SELECT " ++ t ++ sl "; DROP TABLE t")
        = is_read_only_query (sl "SELECT" ++ ((' ' :: t) ++ sl "; DROP TABLE t")) := by
          rw [show sl "SELECT " ++ t = sl "SELECT" ++ (' ' :: t) from rfl, List.append_assoc]
      _ = true := h
  · decide

/-- C2 counterexample: the claim asserts that every string starting with WITH
that has no deny-listed token and no stacked statement is Admitted; the code
rejects this WITH-prefixed common-table-expression query. -/
theorem C2_counterexample :
    is_read_only_query (sl "WITH c AS (SELECT 1) SELECT 2") = false := by decide

/-- C2 amended: the validator admits a query if and only if its stripped,
uppercased text starts with SELECT; every query of the form "SELECT " + rest
is admitted, while queries beginning with WITH or DECLARE are rejected. -/
theorem C2_amended_theorem :
    (∀ q : Str, is_read_only_query q = true ↔
      (pyUpper (pyStrip q)).take 6 = sl "SELECT") ∧
    (∀ t : Str, is_read_only_query (sl "SELECT " ++ t) = true) ∧
    (∀ t : Str, is_read_only_query (sl "WITH " ++ t) = false) ∧
    (∀ t : Str, is_read_only_query (sl "DECLARE " ++ t) = false) := by
  refine ⟨?_, ?_, ?_, ?_⟩
  · intro q
    unfold is_read_only_query
    constructor
    · intro h
      have hp := ( List.isPrefixOf_iff_prefix).mp h
      rw [ List.prefix_iff_eq_take] at hp
      exact hp.symm
    · intro h
      refine ( List.isPrefixOf_iff_prefix).mpr ?_
      rw [ List.prefix_iff_eq_take]
      exact h.symm
  · intro t
    exact validator_select_leading (' ' :: t)
  · intro t
    exact validator_rejects_head 'W' (sl "ITH " ++ t) (by decide) (by decide)
  · intro t
    exact validator_rejects_head 'D' (sl "ECLARE " ++ t) (by decide) (by decide)

/-- C2 witness: the amended characterization evaluated at a concrete
SELECT query. -/
theorem C2_witness : is_read_only_query (sl "SELECT " ++ sl "* FROM t") = true :=
  C2_amended_theorem.2.1 (sl "* FROM t")

/-- Worker for Python str.replace with a nonempty pattern: scan left to
right, replacing non-overlapping occurrences.  The fuel argument makes the
recursion structural; every call consumes at least one character, so any
fuel at least the length of the scanned list yields the exact semantics. -/
def replGo (p r : Str) : Nat → Str → Str
  | _, [] => []
  | 0, s => s
  | fuel + 1, c :: s =>
    if List.isPrefixOf p (c :: s) then r ++ replGo p r fuel ((c :: s).drop p.length)
    else c :: replGo p r fuel s

/-- Python s.replace(p, r): for an empty pattern the replacement is inserted
before every character and at the end, otherwise occurrences are replaced
left to right. -/
def pyReplace (s p r : Str) : Str :=
  if p = [] then r ++ (s.map (fun c => c :: r)).flatten
  else replGo p r s.length s

/-- An occurrence of a star-free nonempty pattern inside a star-headed list
lies beyond the head. -/
lemma infix_of_star_cons {p l : Str} (hp : '*' ∉ p) (hne : p ≠ []) :
    p <:+: ('*' :: l) → p <:+: l := by
  rintro ⟨s, t, h⟩
  cases s with
  | nil =>
    cases p with
    | nil => exact absurd rfl hne
    | cons a p' =>
      have ha : a = '*' := by
        have := congrArg (fun x => x.headD ' ') h
        simpa using this
      exact absurd (ha ▸ List.mem_cons_self a p') hp
  | cons x s' =>
    refine ⟨s', t, ?_⟩
    have h' : x :: (s' ++ p ++ t) = '*' :: l := by simpa using h
    exact (List.cons.injEq _ _ _ _ ▸ h').2

/-- A star-free prefix of the replaced text is a prefix of the original
text, when the replacement string is all stars. -/
lemma prefix_replGo_starfree (p : Str) :
    ∀ fuel (q s : Str), '*' ∉ q → s.length ≤ fuel →
      q <+: replGo p (sl "***") fuel s → q <+: s := by
  intro fuel
  induction fuel with
  | zero =>
    intro q s hq hs hpre
    have hnil : s = [] := List.length_eq_zero.mp (Nat.le_zero.mp hs)
    subst hnil
    rw [show replGo p (sl "***") 0 [] = [] from by simp [replGo]] at hpre
    exact hpre
  | succ n ih =>
    intro q s hq hs hpre
    cases s with
    | nil =>
      rw [show replGo p (sl "***") (n + 1) [] = [] from by simp [replGo]] at hpre
      exact hpre
    | cons c s' =>
      have hs' : s'.length ≤ n := by
        simp only [List.length_cons] at hs
        omega
      by_cases hm : List.isPrefixOf p (c :: s') = true
      · rw [show replGo p (sl "***") (n + 1) (c :: s')
              = sl "***" ++ replGo p (sl "***") n ((c :: s').drop p.length) from by
            simp [replGo, hm]] at hpre
        cases q with
        | nil => exact List.nil_prefix
        | cons a q' =>
          exfalso
          obtain ⟨t, ht⟩ := hpre
          have ha : a = '*' := by
            have := congrArg (fun x => x.headD ' ') ht
            simpa using this
          exact hq (ha ▸ List.mem_cons_self a q')
      · rw [show replGo p (sl "***") (n + 1) (c :: s')
              = c :: replGo p (sl "***") n s' from by simp [replGo, hm]] at hpre
        cases q with
        | nil => exact List.nil_prefix
        | cons a q' =>
          obtain ⟨t, ht⟩ := hpre
          have ht' : a :: (q' ++ t) = c :: replGo p (sl "***") n s' := by simpa using ht
          rw [List.cons_eq_cons] at ht'
          obtain ⟨h1, h2⟩ := ht'
          subst h1
          have hq' : '*' ∉ q' := fun hmem => hq (List.mem_cons_of_mem _ hmem)
          have := ih q' s' hq' hs' ⟨t, h2⟩
          exact List.cons_prefix_cons.mpr ⟨rfl, this⟩

/-- A nonempty star-free pattern never occurs in the text produced by
replacing its occurrences with the all-star string. -/
lemma not_infix_replGo (p : Str) (hp : '*' ∉ p) (hne : p ≠ []) :
    ∀ fuel (s : Str), s.length ≤ fuel → ¬ p <:+: replGo p (sl "***") fuel s := by
  intro fuel
  induction fuel with
  | zero =>
    intro s hs hinf
    have hnil : s = [] := List.length_eq_zero.mp (Nat.le_zero.mp hs)
    subst hnil
    rw [show replGo p (sl "***") 0 [] = [] from by simp [replGo]] at hinf
    exact hne (( List.infix_nil).mp hinf)
  | succ n ih =>
    intro s hs hinf
    cases s with
    | nil =>
      rw [show replGo p (sl "***") (n + 1) [] = [] from by simp [replGo]] at hinf
      exact hne (( List.infix_nil).mp hinf)
    | cons c s' =>
      have hs' : s'.length ≤ n := by
        simp only [List.length_cons] at hs
        omega
      by_cases hm : List.isPrefixOf p (c :: s') = true
      · rw [show replGo p (sl "***") (n + 1) (c :: s')
              = sl "***" ++ replGo p (sl "***") n ((c :: s').drop p.length) from by
            simp [replGo, hm]] at hinf
        have h1 : p <:+: replGo p (sl "***") n ((c :: s').drop p.length) :=
          infix_of_star_cons hp hne (infix_of_star_cons hp hne (infix_of_star_cons hp hne hinf))
        have hlen : ((c :: s').drop p.length).length ≤ n := by
          have hpos : 0 < p.length := List.length_pos.mpr hne
          simp only [List.length_drop, List.length_cons]
          omega
        exact ih _ hlen h1
      · rw [show replGo p (sl "***") (n + 1) (c :: s')
              = c :: replGo p (sl "***") n s' from by simp [replGo, hm]] at hinf
        obtain ⟨s₀, t, h⟩ := hinf
        cases s₀ with
        | nil =>
          cases p with
          | nil => exact hne rfl
          | cons a p' =>
            have h' : a :: (p' ++ t) = c :: replGo (a :: p') (sl "***") n s' := by
              simpa using h
            rw [List.cons_eq_cons] at h'
            obtain ⟨h1, h2⟩ := h'
            subst h1
            have hstar' : '*' ∉ p' := fun hmem => hp (List.mem_cons_of_mem _ hmem)
            have hps' : p' <+: s' :=
              prefix_replGo_starfree (a :: p') n p' s' hstar' hs' ⟨t, h2⟩
            exact hm (( List.isPrefixOf_iff_prefix).mpr (List.cons_prefix_cons.mpr ⟨rfl, hps'⟩))
        | cons x s₀' =>
          have h' : x :: (s₀' ++ p ++ t) = c :: replGo p (sl "***") n s' := by simpa using h
          rw [List.cons_eq_cons] at h'
          exact ih s' hs' ⟨s₀', t, h'.2⟩

/-- DBConfig connection parameters (server.py lines 25-44). -/
structure DBConfigData where
  server : Str
  port : Str
  database : Str
  user : Str
  password : Str
  driver : Str
deriving DecidableEq

/-- The pyodbc connection string built in get_connection (lines 58-69). -/
def conn_str (c : DBConfigData) : Str :=
  sl "DRIVER=" ++ c.driver ++ sl ";SERVER=" ++ c.server ++ sl "," ++ c.port ++
    sl ";DATABASE=" ++ c.database ++ sl ";UID=" ++ c.user ++ sl ";PWD=" ++ c.password ++
    sl ";Encrypt=yes;TrustServerCertificate=yes;Connection Timeout=30;ConnectRetryCount=3;ConnectRetryInterval=10"

/-- The diagnostic record logged on each connect attempt (line 70):
conn_str.replace(password, "***"). -/
def connect_log_text (c : DBConfigData) : Str :=
  pyReplace (conn_str c) c.password (sl "***")

set_option maxRecDepth 4000 in
/-- C7 counterexample: with the configured password "***", the replacement
leaves the connection string unchanged, so the logged diagnostic still
contains that password in plaintext and the universally quantified claim is
false. -/
theorem C7_counterexample :
    (⟨sl "h", sl "1433", sl "db", sl "sa", sl "***", sl "d"⟩ : DBConfigData).password
      <:+: connect_log_text ⟨sl "h", sl "1433", sl "db", sl "sa", sl "***", sl "d"⟩ := by
  decide

/-- C7 amended: for every configuration whose password is nonempty and does
not contain the star character, the logged connection string does not
contain the password (passwords containing stars, such as "***" itself, can
survive the redaction, and the empty password occurs in every string). -/
theorem C7_amended_theorem (c : DBConfigData) (h1 : c.password ≠ [])
    (h2 : '*' ∉ c.password) :
    ¬ c.password <:+: connect_log_text c := by
  have he : connect_log_text c
      = replGo c.password (sl "***") (conn_str c).length (conn_str c) := by
    unfold connect_log_text pyReplace
    rw [if_neg h1]
  rw [he]
  exact not_infix_replGo c.password h2 h1 (conn_str c).length (conn_str c) le_rfl

/-- C7 witness: the redaction theorem applied to a concrete configuration. -/
theorem C7_witness :
    ¬ (⟨sl "localhost", sl "1433", sl "db", sl "sa", sl "hunter2", sl "drv"⟩
        : DBConfigData).password
      <:+: connect_log_text
        ⟨sl "localhost", sl "1433", sl "db", sl "sa", sl "hunter2", sl "drv"⟩ :=
  C7_amended_theorem _ (by decide) (by decide)

/-- DBConfig.__init__ (server.py lines 26-44).  os.environ.get is the env
oracle; keys other than MSSQL_SERVER default to the empty string or the
driver default.  The Python expression testing a comma in
self.config["server"] raises an uncaught TypeError when MSSQL_SERVER is
absent (the value is None), modeled as the error branch. -/
def dbconfig_init (env : Str → Option Str) : Except Str DBConfigData :=
  match env (sl "MSSQL_SERVER") with
  | none => .error (sl "TypeError: argument of type NoneType is not iterable")
  | some s =>
    let cfg : DBConfigData :=
      { server := s
        port := sl "1433"
        database := (env (sl "MSSQL_DATABASE")).getD []
        user := (env (sl "MSSQL_USER")).getD []
        password := (env (sl "MSSQL_PASSWORD")).getD []
        driver := (env (sl "MSSQL_DRIVER")).getD (sl "\x7bODBC Driver 18 for SQL Server\x7d") }
    if ',' ∈ s then
      let parts := s.splitOn ','
      .ok { cfg with
            server := parts.headD []
            port := if parts.length > 1 then parts.getD 1 (sl "1433") else cfg.port }
    else .ok cfg

/-- C6: evaluating DBConfig construction with MSSQL_SERVER absent from the
environment raises a TypeError at construction (import) time, contradicting
the claim that a missing server endpoint surfaces only as a connection
failure at first use; with the server present, construction succeeds even
when every other value is missing. -/
theorem C6_startup_crash_on_missing_server :
    dbconfig_init (fun _ => none)
      = .error (sl "TypeError: argument of type NoneType is not iterable") ∧
    dbconfig_init (fun k => if k = sl "MSSQL_SERVER" then some (sl "localhost") else none)
      = .ok { server := sl "localhost", port := sl "1433", database := [], user := [],
              password := [],
              driver := sl "\x7bODBC Driver 18 for SQL Server\x7d" } := by
  constructor
  · rfl
  · rfl

/-- DBConfig.get_connection (server.py lines 46-77).  The held connection is
a session handle (or None); probe tells whether the liveness query
"SELECT 1" succeeds on a given session; connect is the outcome of
pyodbc.connect.  Returns the call result, the stored connection reference
after the call, and the number of connect attempts made during the call. -/
def get_connection (held : Option Nat) (probe : Nat → Bool)
    (connect : Except Str Nat) : Except Str Nat × Option Nat × Nat :=
  let held1 : Option Nat :=
    match held with
    | some c => if probe c then some c else none
    | none => none
  match held1 with
  | some c => (.ok c, some c, 0)
  | none =>
    match connect with
    | .ok c => (.ok c, some c, 1)
    | .error e => (.error e, none, 1)

/-- C4: while the held connection passes the liveness probe, get_connection
returns the same session with zero connect attempts; when the probe fails,
exactly one connect attempt is made in the same call, a failure of that
single attempt propagates the error with the held reference reset to None,
and a success stores and returns the fresh session. -/
theorem C4_reuse_and_single_retry (held : Option Nat) (probe : Nat → Bool)
    (connect : Except Str Nat) :
    (∀ c, held = some c → probe c = true →
      get_connection held probe connect = (.ok c, some c, 0)) ∧
    (∀ c, held = some c → probe c = false →
      (get_connection held probe connect).2.2 = 1 ∧
      (∀ e, connect = .error e →
        get_connection held probe connect = (.error e, none, 1)) ∧
      (∀ n, connect = .ok n →
        get_connection held probe connect = (.ok n, some n, 1))) := by
  constructor
  · intro c hc hp
    subst hc
    simp [get_connection, hp]
  · intro c hc hp
    subst hc
    refine ⟨?_, ?_, ?_⟩
    · cases connect with
      | ok n => simp [get_connection, hp]
      | error e => simp [get_connection, hp]
    · intro e he
      subst he
      simp [get_connection, hp]
    · intro n hn
      subst hn
      simp [get_connection, hp]

/-- C4 witness: a live held session is returned unchanged with zero connect
attempts. -/
theorem C4_witness :
    get_connection (some 7) (fun _ => true) (.error (sl "unused"))
      = (.ok 7, some 7, 0) :=
  (C4_reuse_and_single_retry (some 7) (fun _ => true) (.error (sl "unused"))).1 7 rfl rfl

/-- Comma-join of a rendered row, as in ",".join(map(str, row)). -/
def commaJoin (cells : List Str) : Str := List.intercalate (sl ",") cells

/-- The delimited table-preview rendering in read_resource (lines 129-132):
"\n".join([",".join(columns)] + [",".join(map(str, row)) for row in rows]). -/
def render_preview (columns : List Str) (rows : List (List Str)) : Str :=
  List.intercalate (sl "\n") (commaJoin columns :: rows.map commaJoin)

/-- Text lines of a rendered payload: split on the newline character. -/
def linesOf (s : Str) : List Str := s.splitOn '\n'

/-- C9 counterexample: the claim asserts every successful preview with R rows
renders exactly R + 1 lines; a single row whose stringified value contains a
newline renders three lines instead of two. -/
theorem C9_counterexample :
    (linesOf (render_preview [sl "a"] [[sl "x\ny"]])).length ≠ 1 + 1 := by decide

/-- C9 amended: provided no column name and no stringified cell value
contains a newline character, the preview text consists of exactly R + 1
newline-separated lines: the comma-joined header followed by one
comma-joined line per row. -/
theorem C9_amended_theorem (columns : List Str) (rows : List (List Str))
    (hc : '\n' ∉ commaJoin columns)
    (hr : ∀ r ∈ rows, '\n' ∉ commaJoin r) :
    linesOf (render_preview columns rows)
      = commaJoin columns :: rows.map commaJoin ∧
    (linesOf (render_preview columns rows)).length = rows.length + 1 := by
  have hx : ∀ l ∈ commaJoin columns :: rows.map commaJoin, '\n' ∉ l := by
    intro l hl
    rcases List.mem_cons.mp hl with h | h
    · exact h ▸ hc
    · obtain ⟨r, hrm, hrl⟩ := List.mem_map.mp h
      exact hrl ▸ hr r hrm
  have hsplit := List.splitOn_intercalate
    (commaJoin columns :: rows.map commaJoin) '\n' hx (by simp)
  have he : linesOf (render_preview columns rows)
      = commaJoin columns :: rows.map commaJoin := by
    unfold linesOf render_preview
    exact hsplit
  refine ⟨he, ?_⟩
  rw [he]
  simp

/-- C9 witness: the amended line-count theorem on a concrete two-column,
two-row result, giving exactly three lines. -/
theorem C9_witness :
    (linesOf (render_preview [sl "a", sl "b"] [[sl "1", sl "2"], [sl "3", sl "4"]])).length
      = 2 + 1 :=
  (C9_amended_theorem [sl "a", sl "b"] [[sl "1", sl "2"], [sl "3", sl "4"]]
    (by decide) (by decide)).2

/-- Lowercase hexadecimal digit character. -/
def hexDigit (n : Nat) : Char :=
  if n < 10 then Char.ofNat (48 + n) else Char.ofNat (87 + n)

/-- A JSON \uXXXX escape for one UTF-16 code unit. -/
def u4 (n : Nat) : Str :=
  ['\\', 'u', hexDigit (n / 4096 % 16), hexDigit (n / 256 % 16),
   hexDigit (n / 16 % 16), hexDigit (n % 16)]

/-- json.dumps escaping of one character (default ensure_ascii=True): named
escapes for the common control characters, \uXXXX (with surrogate pairs
beyond the basic plane) for other control or non-ASCII characters. -/
def jsonEscapeChar (c : Char) : Str :=
  if c = '"' then sl "\\\""
  else if c = '\\' then sl "\\\\"
  else if c = '\n' then sl "\\n"
  else if c = '\r' then sl "\\r"
  else if c = '\t' then sl "\\t"
  else if c = '\x08' then sl "\\b"
  else if c = '\x0c' then sl "\\f"
  else if c.toNat < 32 || c.toNat > 126 then
    if c.toNat < 65536 then u4 c.toNat
    else u4 (55296 + (c.toNat - 65536) / 1024) ++ u4 (56320 + (c.toNat - 65536) % 1024)
  else [c]

/-- JSON string literal rendering. -/
def jsonString (s : Str) : Str := '"' :: (s.flatMap jsonEscapeChar ++ ['"'])

/-- One key/value line of json.dumps(..., indent=2) at nesting depth two. -/
def jsonDictEntry (e : Str × Str) : Str :=
  sl "    " ++ jsonString e.1 ++ sl ": " ++ jsonString e.2

/-- json.dumps rendering of one row dictionary under indent=2. -/
def jsonDict (entries : List (Str × Str)) : Str :=
  if entries = [] then ['\x7b', '\x7d']
  else '\x7b' :: '\n' ::
    (List.intercalate (sl ",\n") (entries.map jsonDictEntry)
      ++ ('\n' :: (sl "  " ++ ['\x7d'])))

/-- json.dumps(result_list, indent=2) for the list of row dictionaries
(call_tool line 191). -/
def jsonDumpRows (ds : List (List (Str × Str))) : Str :=
  if ds = [] then sl "[]"
  else '[' :: '\n' ::
    (List.intercalate (sl ",\n") (ds.map (fun d => sl "  " ++ jsonDict d))
      ++ ('\n' :: [']']))

/-- call_tool result materialization (lines 177-188): display_rows =
rows[:3], each row rendered as a mapping from column name to stringified
value.  The cursor guarantees len(row) = len(columns), so the pairing is a
zip; duplicate column names would collapse in the Python dict, which the
row-count claims do not touch. -/
def tool_result_list (columns : List Str) (rows : List (List Str)) :
    List (List (Str × Str)) :=
  (rows.take 3).map (fun row => columns.zip row)

/-- call_tool summary header (lines 193-196). -/
def tool_summary (rowCount : Nat) : Str :=
  sl "Query returned " ++ (toString rowCount).data ++ sl " rows. " ++
    (if rowCount > 3 then sl "Showing first 3 rows:" else [])

/-- call_tool success payload (line 198): f-string of the summary, a blank
line, and the JSON dump. -/
def tool_success_text (columns : List Str) (rows : List (List Str)) : Str :=
  tool_summary rows.length ++ sl "\n\n" ++ jsonDumpRows (tool_result_list columns rows)

/-- The truncation notice does not occur in the summary of a small result. -/
lemma showing_not_in_summary (n : Nat) (hn : n ≤ 3) :
    ¬ sl "Showing first 3 rows" <:+: tool_summary n := by
  interval_cases n <;> decide

set_option maxRecDepth 4000 in
/-- C5 counterexample: the claim asserts the response contains the text
"Showing first 3 rows" only when the row count exceeds three; a one-row
result whose rendered cell value is that very text makes the response
contain it anyway, so the stated if-and-only-if is false at this input. -/
theorem C5_counterexample :
    ¬ ([[sl "Showing first 3 rows"]].length > 3) ∧
    sl "Showing first 3 rows"
      <:+: tool_success_text [sl "c"] [[sl "Showing first 3 rows"]] := by
  constructor
  · decide
  · decide

/-- C5 amended: the execution path materializes exactly min(N, 3) rows for
rendering while reporting the true total N; the response starts with
"Query returned N rows. "; when N exceeds three the response contains
"Showing first 3 rows"; and the summary header contains that text if and
only if N exceeds three (the full response can additionally contain it
inside a rendered cell value, as the counterexample shows). -/
theorem C5_amended_theorem (columns : List Str) (rows : List (List Str)) :
    (tool_result_list columns rows).length = min rows.length 3 ∧
    sl "Query returned " ++ (toString rows.length).data ++ sl " rows. "
      <+: tool_success_text columns rows ∧
    (rows.length > 3 →
      sl "Showing first 3 rows" <:+: tool_success_text columns rows) ∧
    (sl "Showing first 3 rows" <:+: tool_summary rows.length ↔ rows.length > 3) := by
  refine ⟨?_, ?_, ?_, ?_⟩
  · simp only [tool_result_list, List.length_map, List.length_take]
    omega
  · refine ⟨(if rows.length > 3 then sl "Showing first 3 rows:" else [])
      ++ (sl "\n\n" ++ jsonDumpRows (tool_result_list columns rows)), ?_⟩
    unfold tool_success_text tool_summary
    simp [List.append_assoc]
  · intro hgt
    refine ⟨sl "Query returned " ++ (toString rows.length).data ++ sl " rows. ",
      ':' :: (sl "\n\n" ++ jsonDumpRows (tool_result_list columns rows)), ?_⟩
    unfold tool_success_text tool_summary
    rw [if_pos hgt]
    rw [show sl "Showing first 3 rows:" = sl "Showing first 3 rows" ++ [':'] from rfl]
    simp [List.append_assoc]
  · constructor
    · intro h
      by_contra hn
      exact showing_not_in_summary rows.length (by omega) h
    · intro hgt
      refine ⟨sl "Query returned " ++ (toString rows.length).data ++ sl " rows. ",
        [':'], ?_⟩
      unfold tool_summary
      rw [if_pos hgt]
      rw [show sl "Showing first 3 rows:" = sl "Showing first 3 rows" ++ [':'] from rfl]
      simp [List.append_assoc]

/-- C5 witness: a four-row result reports the total of four, and its
response carries the truncation notice. -/
theorem C5_witness :
    sl "Showing first 3 rows"
      <:+: tool_success_text [sl "c"] [[sl "1"], [sl "2"], [sl "3"], [sl "4"]] :=
  (C5_amended_theorem [sl "c"] [[sl "1"], [sl "2"], [sl "3"], [sl "4"]]).2.2.1 (by decide)

/-- Error raised by the tool-call entry point; Python raises ValueError,
which the protocol layer surfaces as an InvalidArgument-kind failure. -/
inductive ToolErr where
  | invalidArgument : Str → ToolErr
deriving DecidableEq

/-- call_tool handler (server.py lines 153-200).  The backend argument
stands for the try block's database work: the produced (columns, rows) on
success, or the stringified exception on failure.  A missing or empty
"query" argument is falsy in Python, hence the two Query-is-required
branches. -/
def call_tool (name : Str) (query? : Option Str)
    (backend : Except Str (List Str × List (List Str))) : Except ToolErr (List Str) :=
  if name ≠ sl "execute_sql" then .error (.invalidArgument (sl "Unknown tool: " ++ name))
  else
    match query? with
    | none => .error (.invalidArgument (sl "Query is required"))
    | some q =>
      if q = [] then .error (.invalidArgument (sl "Query is required"))
      else if is_read_only_query q = false then
        .ok [sl "Error: Only SELECT queries are allowed"]
      else
        match backend with
        | .ok (cols, rows) => .ok [tool_success_text cols rows]
        | .error e => .ok [sl "Error: " ++ e]

/-- Unfolding of call_tool on a well-formed invocation. -/
lemma call_tool_wellformed (q : Str) (backend : Except Str (List Str × List (List Str)))
    (hq : q ≠ []) :
    call_tool (sl "execute_sql") (some q) backend
      = if is_read_only_query q = false then
          .ok [sl "Error: Only SELECT queries are allowed"]
        else
          match backend with
          | .ok (cols, rows) => .ok [tool_success_text cols rows]
          | .error e => .ok [sl "Error: " ++ e] := by
  unfold call_tool
  simp [hq]

/-- C3: the tool-call entry point raises an InvalidArgument-kind error if
and only if the tool name is not execute_sql or the query argument is
absent or empty; for a well-formed call it never raises: a rejected query
yields the fixed Error text as a successful response, and a backend failure
yields a successful response whose text is "Error: " followed by the
backend message. -/
theorem C3_tool_call_boundary (name : Str) (query? : Option Str)
    (backend : Except Str (List Str × List (List Str))) :
    ((∃ m, call_tool name query? backend = .error (.invalidArgument m)) ↔
      (name ≠ sl "execute_sql" ∨ query? = none ∨ query? = some [])) ∧
    (∀ q, query? = some q → q ≠ [] → name = sl "execute_sql" →
      (is_read_only_query q = false →
        call_tool name query? backend = .ok [sl "Error: Only SELECT queries are allowed"]) ∧
      (∀ e, backend = .error e →
        is_read_only_query q = true →
        call_tool name query? backend = .ok [sl "Error: " ++ e] ∧
        sl "Error: " <+: sl "Error: " ++ e)) := by
  constructor
  · constructor
    · intro ⟨m, hm⟩
      by_cases hn : name = sl "execute_sql"
      · subst hn
        cases query? with
        | none => exact Or.inr (Or.inl rfl)
        | some q =>
          by_cases hq : q = []
          · exact Or.inr (Or.inr (hq ▸ rfl))
          · exfalso
            rw [call_tool_wellformed q backend hq] at hm
            by_cases hv : is_read_only_query q = false
            · rw [if_pos hv] at hm
              exact Except.noConfusion hm
            · rw [if_neg hv] at hm
              cases backend with
              | ok res =>
                obtain ⟨cols, rows⟩ := res
                exact Except.noConfusion hm
              | error e => exact Except.noConfusion hm
      · exact Or.inl hn
    · intro h
      rcases h with hn | hq | hq
      · exact ⟨sl "Unknown tool: " ++ name, by simp [call_tool, hn]⟩
      · subst hq
        by_cases hn : name = sl "execute_sql"
        · exact ⟨sl "Query is required", by simp [call_tool, hn]⟩
        · exact ⟨sl "Unknown tool: " ++ name, by simp [call_tool, hn]⟩
      · subst hq
        by_cases hn : name = sl "execute_sql"
        · exact ⟨sl "Query is required", by simp [call_tool, hn]⟩
        · exact ⟨sl "Unknown tool: " ++ name, by simp [call_tool, hn]⟩
  · intro q hq hqe hn
    subst hq
    subst hn
    constructor
    · intro hv
      rw [call_tool_wellformed q backend hqe, if_pos hv]
    · intro e he hv
      subst he
      constructor
      · rw [call_tool_wellformed q (.error e) hqe, if_neg (by simp [hv])]
      · exact List.prefix_append _ _

/-- C3 witness: a rejected query at a well-formed tool call returns the
fixed rejection text as a successful response. -/
theorem C3_witness :
    call_tool (sl "execute_sql") (some (sl "DROP TABLE x")) (.error (sl "boom"))
      = .ok [sl "Error: Only SELECT queries are allowed"] :=
  ((C3_tool_call_boundary (sl "execute_sql") (some (sl "DROP TABLE x"))
      (.error (sl "boom"))).2 (sl "DROP TABLE x") rfl (by decide) rfl).1 (by decide)

/-- Error raised by the resource-read entry point: the raised ValueError
(InvalidArgument kind) or the raised RuntimeError (ExecutionError kind). -/
inductive ResErr where
  | invalidArgument : Str → ResErr
  | executionError : Str → ResErr
deriving DecidableEq

/-- read_resource handler (server.py lines 113-135).  The backend argument
maps the executed query text to the produced (columns, rows) or to the
stringified exception. -/
def read_resource (uri : Str)
    (backend : Str → Except Str (List Str × List (List Str))) : Except ResErr Str :=
  if List.isPrefixOf (sl "mssql://") uri = false then
    .error (.invalidArgument (sl "Invalid URI scheme: " ++ uri))
  else
    let table := ((uri.drop 8).splitOn '/').headD []
    let query := sl "SELECT TOP 100 * FROM " ++ table
    if is_read_only_query query = false then
      .error (.invalidArgument (sl "Only SELECT queries are allowed"))
    else
      match backend query with
      | .ok (cols, rows) => .ok (render_preview cols rows)
      | .error e => .error (.executionError (sl "Database error: " ++ e))

/-- Unfolding of read_resource on a prefixed identifier: the validator
branch never fires, so only the backend outcome remains. -/
lemma read_resource_prefixed (uri : Str)
    (backend : Str → Except Str (List Str × List (List Str)))
    (hp : List.isPrefixOf (sl "mssql://") uri = true) :
    read_resource uri backend
      = match backend (sl "SELECT TOP 100 * FROM " ++ ((uri.drop 8).splitOn '/').headD [])
          with
        | .ok (cols, rows) => .ok (render_preview cols rows)
        | .error e => .error (.executionError (sl "Database error: " ++ e)) := by
  unfold read_resource
  rw [hp]
  simp [preview_query_admitted]

/-- C8: read_resource raises an InvalidArgument-kind error if and only if
the identifier does not start with mssql://; with the prefix present, the
query is issued for the path segment immediately following the prefix, a
backend failure is raised as an ExecutionError carrying the backend
message, and a backend success returns the delimited rendering. -/
theorem C8_read_resource_boundary (uri : Str)
    (backend : Str → Except Str (List Str × List (List Str))) :
    ((∃ m, read_resource uri backend = .error (.invalidArgument m)) ↔
      List.isPrefixOf (sl "mssql://") uri = false) ∧
    (List.isPrefixOf (sl "mssql://") uri = true →
      (∀ e, backend (sl "SELECT TOP 100 * FROM " ++ ((uri.drop 8).splitOn '/').headD [])
          = .error e →
        read_resource uri backend
          = .error (.executionError (sl "Database error: " ++ e))) ∧
      (∀ cols rows,
        backend (sl "SELECT TOP 100 * FROM " ++ ((uri.drop 8).splitOn '/').headD [])
          = .ok (cols, rows) →
        read_resource uri backend = .ok (render_preview cols rows))) := by
  constructor
  · constructor
    · intro ⟨m, hm⟩
      by_cases hp : List.isPrefixOf (sl "mssql://") uri = false
      · exact hp
      · exfalso
        have hp' : List.isPrefixOf (sl "mssql://") uri = true := by
          cases h : List.isPrefixOf (sl "mssql://") uri
          · exact absurd h hp
          · rfl
        rw [read_resource_prefixed uri backend hp'] at hm
        cases hb : backend
            (sl "SELECT TOP 100 * FROM " ++ ((uri.drop 8).splitOn '/').headD []) with
        | ok res =>
          obtain ⟨cols, rows⟩ := res
          rw [hb] at hm
          exact Except.noConfusion hm
        | error e =>
          rw [hb] at hm
          simp at hm
    · intro hp
      refine ⟨sl "Invalid URI scheme: " ++ uri, ?_⟩
      unfold read_resource
      rw [if_pos hp]
  · intro hp
    constructor
    · intro e he
      rw [read_resource_prefixed uri backend hp, he]
    · intro cols rows hb
      rw [read_resource_prefixed uri backend hp, hb]

/-- C8 witness: a prefixed identifier whose backend fails surfaces the
backend message as an ExecutionError. -/
theorem C8_witness :
    read_resource (sl "mssql://t/data") (fun _ => .error (sl "boom"))
      = .error (.executionError (sl "Database error: boom")) :=
  ((C8_read_resource_boundary (sl "mssql://t/data") (fun _ => .error (sl "boom"))).2
    (by decide)).1 (sl "boom") rfl

/-- C10: for every identifier with the mssql:// prefix, the internally
composed preview query passes the read-only validator whatever the
caller-supplied table segment contains, so the branch of read_resource
raising "Only SELECT queries are allowed" is unreachable. -/
theorem C10_validator_branch_unreachable (uri : Str)
    (backend : Str → Except Str (List Str × List (List Str)))
    (hp : List.isPrefixOf (sl "mssql://") uri = true) :
    is_read_only_query
      (sl "SELECT TOP 100 * FROM " ++ ((uri.drop 8).splitOn '/').headD []) = true ∧
    read_resource uri backend
      ≠ .error (.invalidArgument (sl "Only SELECT queries are allowed")) := by
  refine ⟨preview_query_admitted _, ?_⟩
  intro hm
  rw [read_resource_prefixed uri backend hp] at hm
  cases hb : backend
      (sl "SELECT TOP 100 * FROM " ++ ((uri.drop 8).splitOn '/').headD []) with
  | ok res =>
    obtain ⟨cols, rows⟩ := res
    rw [hb] at hm
    exact Except.noConfusion hm
  | error e =>
    rw [hb] at hm
    simp at hm

/-- C10 witness: even an adversarial table segment embedding a deny-listed
statement cannot reach the validator-rejection branch of read_resource. -/
theorem C10_witness :
    read_resource (sl "mssql://x; DROP TABLE y/data") (fun _ => .ok ([], []))
      ≠ .error (.invalidArgument (sl "Only SELECT queries are allowed")) :=
  (C10_validator_branch_unreachable (sl "mssql://x; DROP TABLE y/data")
    (fun _ => .ok ([], [])) (by decide)).2
